import Mathlib

/-!
Shallow embedding of the VoyagersSpace chat-command bot (src/bot.js, v4.1
block, lines 821–2114), covering the command policy tables, the persistent
record store, the authorization and dispatch pipeline, the reconnect
backoff handler and the server reachability checker.  Time is passed
explicitly (milliseconds, `Nat`), JS objects become association lists,
and fallible lookups return `Option`.
-/

/-- Allowed-command policy entry (`commands.json` / `allowedCommands`).
Only the fields the dispatch code reads are modelled: `enabled`,
`requiredRank` and `cooldown` (absent in the JSON ⇒ `none`; the
`setCooldown` default parameter then supplies 300000 ms). -/
structure CommandInfo where
  enabled : Bool
  requiredRank : String
  cooldown : Option Nat
  deriving DecidableEq, Repr

/-- Blocked-command entry (`commands.json` / `bannedCommands`). -/
structure BannedInfo where
  blocked : Bool
  reason : String
  severity : String
  deriving DecidableEq, Repr

/-- Tier-ordering entry (`commands.json` / `ranks`): the JS code reads
`ranks[rank]?.level || 0`, so the `level` field may be missing. -/
structure RankEntry where
  level : Option Int
  deriving DecidableEq, Repr

/-- The three top-level maps of `commands.json`, as association lists. -/
structure CommandsConfig where
  allowedCommands : List (String × CommandInfo)
  bannedCommands : List (String × BannedInfo)
  ranks : List (String × RankEntry)
  deriving DecidableEq, Repr

/-- Fixed administrator list (`GAME_ADMINS`, bot.js line 839). -/
def GAME_ADMINS : List String := ["voyagerplay", "Asadbek_Manager"]

/-- JS `String.prototype.toLowerCase`, modelled characterwise.  Command
names are captured by the `\w+` pattern, hence ASCII, where this
matches the JS behaviour. -/
def jsToLower (s : String) : String := ⟨s.data.map Char.toLower⟩

/-- CommandsManager.isCommandAllowed: the entry under the lowercased name
exists and has `enabled === true`. -/
def isCommandAllowed (cfg : CommandsConfig) (commandName : String) : Bool :=
  match cfg.allowedCommands.lookup (jsToLower commandName) with
  | some cmd => cmd.enabled
  | none => false

/-- CommandsManager.isCommandBanned: the entry under the lowercased name
exists and has `blocked === true`. -/
def isCommandBanned (cfg : CommandsConfig) (commandName : String) : Bool :=
  match cfg.bannedCommands.lookup (jsToLower commandName) with
  | some cmd => cmd.blocked
  | none => false

/-- CommandsManager.getCommandInfo. -/
def getCommandInfo (cfg : CommandsConfig) (commandName : String) : Option CommandInfo :=
  cfg.allowedCommands.lookup (jsToLower commandName)

/-- CommandsManager.getBannedCommandInfo. -/
def getBannedCommandInfo (cfg : CommandsConfig) (commandName : String) : Option BannedInfo :=
  cfg.bannedCommands.lookup (jsToLower commandName)

/-- CommandsManager.getRankLevel: `this.config.ranks[rank]?.level || 0`.
On integers `l || 0` is the identity (it only maps the falsy `0` to `0`),
so a present level is returned as is, and a missing entry or missing
level yields 0. -/
def getRankLevel (cfg : CommandsConfig) (rank : String) : Int :=
  match cfg.ranks.lookup rank with
  | some entry =>
      match entry.level with
      | some l => l
      | none => 0
  | none => 0

/-- CommandsManager.canRankUseCommand: false when the command has no
policy entry, else compares the two resolved levels. -/
def canRankUseCommand (cfg : CommandsConfig) (rank command : String) : Bool :=
  match getCommandInfo cfg command with
  | none => false
  | some cmdInfo =>
      decide (getRankLevel cfg rank ≥ getRankLevel cfg cmdInfo.requiredRank)

/-- Donator record (`data.json` / `donators`). -/
structure Donator where
  rank : String
  joinedAt : Nat
  deriving DecidableEq, Repr

/-- Cooldown record (`data.json` / `commandCooldowns`). -/
structure CooldownEntry where
  lastCommand : Nat
  expiresAt : Nat
  deriving DecidableEq, Repr

/-- Aggregate counters (`data.json` / `stats`). -/
structure Stats where
  totalCommands : Nat
  totalDonats : Nat
  blockedAttempts : Nat
  deriving DecidableEq, Repr

/-- Audit log entry, as pushed by Database.addLog. -/
structure LogEntry where
  timestamp : Nat
  player : String
  command : String
  allowed : Bool
  reason : String
  deriving DecidableEq, Repr

/-- The persistent record store (`data.json`).  `save()` rewrites the
file and is a no-op in this in-memory model. -/
structure DBData where
  donators : List (String × Donator)
  commandCooldowns : List (String × CooldownEntry)
  logs : List LogEntry
  stats : Stats
  deriving DecidableEq, Repr

/-- JS object assignment `obj[k] = v`: replace the binding in place if
the key is present, otherwise add it. -/
def assocSet {α : Type} (k : String) (v : α) : List (String × α) → List (String × α)
  | [] => [(k, v)]
  | (k2, v2) :: rest =>
      if k2 == k then (k, v) :: rest else (k2, v2) :: assocSet k v rest

/-- JS `delete obj[k]`: remove the binding for `k`. -/
def assocErase {α : Type} (k : String) : List (String × α) → List (String × α)
  | [] => []
  | (k2, v2) :: rest =>
      if k2 == k then rest else (k2, v2) :: assocErase k rest

/-- The trimming step of Database.addLog: after the push, if the list
exceeds 1000 entries keep only the last 1000 (`slice(-1000)`). -/
def trimLogs (logs : List LogEntry) : List LogEntry :=
  if logs.length > 1000 then logs.drop (logs.length - 1000) else logs

/-- Database.addLog: push `{timestamp: Date.now(), player, command,
allowed, reason}`, trim to the last 1000 entries, save. -/
def addLog (d : DBData) (now : Nat) (playerName command : String)
    (allowed : Bool) (reason : String) : DBData :=
  { d with logs := trimLogs (d.logs ++ [⟨now, playerName, command, allowed, reason⟩]) }

/-- Database.getDonator: `this.data.donators[username] || null`. -/
def getDonator (d : DBData) (username : String) : Option Donator :=
  d.donators.lookup username

/-- Database.setCooldown: stores `{lastCommand: now, expiresAt: now +
cooldownMs}`; the JS default parameter supplies 300000 ms when the
caller passes `undefined`. -/
def setCooldown (d : DBData) (now : Nat) (username : String)
    (cooldownMs : Option Nat) : DBData :=
  { d with commandCooldowns :=
      assocSet username ⟨now, now + cooldownMs.getD 300000⟩ d.commandCooldowns }

/-- Database.isOnCooldown: no record ⇒ false; an expired record
(`now > expiresAt`) is lazily deleted and reported false; otherwise
true.  The possibly-updated store is returned alongside the answer. -/
def isOnCooldown (d : DBData) (now : Nat) (username : String) : Bool × DBData :=
  match d.commandCooldowns.lookup username with
  | none => (false, d)
  | some cooldown =>
      if now > cooldown.expiresAt then
        (false, { d with commandCooldowns := assocErase username d.commandCooldowns })
      else
        (true, d)

/-- Database.getCooldownTimeLeft: `Math.max(0, expiresAt - Date.now())`;
on `Nat` the truncated subtraction is exactly that. -/
def getCooldownTimeLeft (d : DBData) (now : Nat) (username : String) : Nat :=
  match d.commandCooldowns.lookup username with
  | none => 0
  | some cooldown => cooldown.expiresAt - now

/-- Outcome of one run of the dispatch pipeline, one constructor per
return path of handlePlayerCommand (bot.js lines 1222–1288). -/
inductive CmdOutcome where
  | adminExecuted
  | notDonator
  | blocked (reason : String)
  | unknownCommand
  | insufficientRank
  | onCooldown (timeLeftMs : Nat)
  | accepted
  deriving DecidableEq, Repr

/-- Result of handlePlayerCommand: the updated record store, the taken
path, and the chat lines sent through `bot.chat`. -/
structure HandleResult where
  db : DBData
  outcome : CmdOutcome
  chats : List String
  deriving DecidableEq, Repr

/-- executeCommand (bot.js lines 1291–1401): the name-to-effect switch.
Returns the chat lines emitted.  `give`/`effect` (and the admin-only
`say`/`broadcast`) short-circuit with a usage reply on empty args;
`say`/`clear`/`weather`/`time`/`broadcast` are additionally gated on
`rank === 'ADMIN'` inside the switch. -/
def executeCommand (playerName command args rank : String) : List String :=
  let isAdmin := rank == "ADMIN"
  match command with
  | "give" =>
      if args == "" then
        [s!"❌ {playerName}, используй: !give [предмет] [кол-во]"]
      else
        let parts := args.splitOn " "
        let item := parts.headD ""
        let amount := (parts.drop 1).headD "1"
        [s!"/give {playerName} {item} {amount}",
         s!"✅ {playerName}, выдано: {item}x{amount}"]
  | "heal" =>
      [s!"/effect give {playerName} minecraft:instant_health 1 10",
       s!"💚 {playerName}, ты исцелен!"]
  | "tpall" =>
      [s!"/execute as @a at {playerName} run teleport @s ~ ~ ~",
       s!"🌍 {playerName}, все телепортированы!"]
  | "gamemode" =>
      let mode := if args == "" then "creative" else args
      [s!"/gamemode {mode} {playerName}", s!"🎮 {playerName}, режим: {mode}"]
  | "effect" =>
      if args == "" then
        [s!"❌ {playerName}, используй: !effect [эффект] [уровень]"]
      else
        let parts := args.splitOn " "
        let eff := parts.headD ""
        let level := (parts.drop 1).headD "1"
        [s!"/effect give {playerName} {eff} 300 {level}",
         s!"✨ {playerName}, применен эффект!"]
  | "fly" =>
      [s!"/ability {playerName} mayfly true", s!"🪁 {playerName}, полёт разрешен!"]
  | "speed" =>
      let speedLevel := if args == "" then "2" else args
      [s!"/effect give {playerName} minecraft:speed 300 {speedLevel}",
       s!"⚡ {playerName}, скорость повышена!"]
  | "say" =>
      if !isAdmin then [s!"❌ {playerName}, эта команда только для ВЛАДЕЛЬЦА!"]
      else if args == "" then [s!"❌ {playerName}, используй: !say [сообщение]"]
      else [args]
  | "clear" =>
      if !isAdmin then [s!"❌ {playerName}, эта команда только для ВЛАДЕЛЬЦА!"]
      else [s!"/clear {playerName}", s!"🧹 {playerName} очистил свой инвентарь!"]
  | "weather" =>
      if !isAdmin then [s!"❌ {playerName}, эта команда только для ВЛАДЕЛЬЦА!"]
      else
        let weather := if args == "" then "clear" else args
        [s!"/weather {weather}", s!"⛅ {playerName}, погода изменена!"]
  | "time" =>
      if !isAdmin then [s!"❌ {playerName}, эта команда только для ВЛАДЕЛЬЦА!"]
      else
        let time := if args == "" then "12000" else args
        [s!"/time set {time}", s!"⏰ {playerName}, время установлено!"]
  | "broadcast" =>
      if !isAdmin then [s!"❌ {playerName}, эта команда только для ВЛАДЕЛЬЦА!"]
      else if args == "" then [s!"❌ {playerName}, используй: !broadcast [сообщение]"]
      else [s!"§c§l[ОБЪЯВЛЕНИЕ]§r §6{args}"]
  | _ => [s!"❌ {playerName}, неизвестная команда !{command}"]

/-- handlePlayerCommand (bot.js lines 1222–1288): administrator bypass,
then the five ordered checks (donator, blocked, allowed, rank,
cooldown), then execution with cooldown/counter/audit updates. -/
def handlePlayerCommand (cfg : CommandsConfig) (d : DBData) (now : Nat)
    (playerName command args : String) : HandleResult :=
  if GAME_ADMINS.contains playerName then
    { db := d, outcome := .adminExecuted,
      chats := executeCommand playerName command args "ADMIN" }
  else
    match getDonator d playerName with
    | none =>
        { db := addLog d now playerName command false "НЕ ДОНАТЕР",
          outcome := .notDonator,
          chats := [s!"❌ {playerName}, команды доступны только донатерам!"] }
    | some donator =>
        if isCommandBanned cfg command then
          let banReason :=
            match getBannedCommandInfo cfg command with
            | some banInfo => banInfo.reason
            | none => ""
          let d1 := addLog d now playerName command false "В ЧЁРНОМ СПИСКЕ"
          let d2 := { d1 with stats :=
            { d1.stats with blockedAttempts := d1.stats.blockedAttempts + 1 } }
          { db := d2, outcome := .blocked banReason,
            chats := [s!"🔒 {playerName}, команда !{command} ЗАПРЕЩЕНА! ({banReason})"] }
        else if !(isCommandAllowed cfg command) then
          { db := addLog d now playerName command false "НЕИЗВЕСТНАЯ КОМАНДА",
            outcome := .unknownCommand,
            chats := [s!"❌ {playerName}, неизвестная команда !{command}"] }
        else if !(canRankUseCommand cfg donator.rank command) then
          { db := addLog d now playerName command false "НЕ ДОСТАТОЧНО ПРАВ",
            outcome := .insufficientRank,
            chats := [s!"❌ {playerName}, команда !{command} недоступна для вашего ранга!"] }
        else
          match isOnCooldown d now playerName with
          | (true, d1) =>
              let timeLeftMs := getCooldownTimeLeft d1 now playerName
              let timeLeft := (timeLeftMs + 999) / 1000
              let minutes := timeLeft / 60
              let seconds := timeLeft % 60
              { db := d1, outcome := .onCooldown timeLeftMs,
                chats := [s!"⏱️ {playerName}, подождите {minutes}м {seconds}с!"] }
          | (false, d1) =>
              let chats := executeCommand playerName command args donator.rank
              let cooldownMs := (getCommandInfo cfg command).bind CommandInfo.cooldown
              let d2 := setCooldown d1 now playerName cooldownMs
              let d3 := { d2 with stats :=
                { d2.stats with totalCommands := d2.stats.totalCommands + 1 } }
              let d4 := addLog d3 now playerName command true "УСПЕШНО"
              { db := d4, outcome := .accepted, chats := chats }

/-- Retry ceiling `MAX_RECONNECT` (bot.js line 1094). -/
def MAX_RECONNECT : Nat := 20

/-- Reconnect state: the module-level `reconnectAttempts` counter. -/
structure ReconnectState where
  reconnectAttempts : Nat
  deriving DecidableEq, Repr

/-- What the `end` handler does besides updating the counter. -/
inductive EndAction where
  | scheduleReconnect (delayMs : Nat)
  | terminalFailure
  deriving DecidableEq, Repr

/-- The `end` event handler (bot.js lines 1202–1213): below the ceiling,
increment the counter and schedule a reconnect after
`min(5000 * reconnectAttempts, 120000)` ms; at the ceiling, report the
terminal failure and schedule nothing. -/
def onEnd (st : ReconnectState) : ReconnectState × EndAction :=
  if st.reconnectAttempts < MAX_RECONNECT then
    let n := st.reconnectAttempts + 1
    (⟨n⟩, .scheduleReconnect (min (5000 * n) 120000))
  else
    (st, .terminalFailure)

/-- The `spawn` handler resets the counter (bot.js line 1118). -/
def onSpawn (_st : ReconnectState) : ReconnectState := ⟨0⟩

/-- Outcome of one raw TCP probe attempt inside ServerChecker.check
(bot.js lines 1052–1071): the socket either connects, errors, or the
5-second timer fires first. -/
inductive ProbeOutcome where
  | connectSuccess
  | connectError
  | connectTimeout
  deriving DecidableEq, Repr

/-- ServerChecker.check resolves `true` only on the `connect` event;
both the `error` event and the timeout resolve `false`, so no failure
escapes as an exception. -/
def check : ProbeOutcome → Bool
  | .connectSuccess => true
  | .connectError => false
  | .connectTimeout => false

/-- ServerChecker state: the `isOnline` flag. -/
structure CheckerState where
  isOnline : Bool
  deriving DecidableEq, Repr

/-- ServerChecker.updateStatus (bot.js lines 1073–1084): remember the
previous flag, overwrite it with the probe result, log a transition
line exactly on an offline→online or online→offline edge, and return
the new flag.  Result: (new state, transition log lines, return value). -/
def updateStatus (st : CheckerState) (outcome : ProbeOutcome) :
    CheckerState × List String × Bool :=
  let wasOnline := st.isOnline
  let isOnline := check outcome
  let logLines :=
    if !wasOnline && isOnline then ["🟢 СЕРВЕР ОНЛАЙН!"]
    else if wasOnline && !isOnline then ["🔴 СЕРВЕР ОФФЛАЙН!"]
    else []
  (⟨isOnline⟩, logLines, isOnline)

/-- Iterate updateStatus over a sequence of probe outcomes (one call per
polling tick), collecting all transition log lines. -/
def runProbes (st : CheckerState) : List ProbeOutcome → CheckerState × List String
  | [] => (st, [])
  | o :: rest =>
      let step := updateStatus st o
      let next := runProbes step.1 rest
      (next.1, step.2.1 ++ next.2)

/-! Helper lemmas about the association-list primitives and the
individual paths of the pipeline. -/

theorem lookup_assocSet_self {α : Type} (k : String) (v : α) (l : List (String × α)) :
    (assocSet k v l).lookup k = some v := by
  induction l with
  | nil => simp [assocSet, List.lookup]
  | cons hd tl ih =>
      obtain ⟨k2, v2⟩ := hd
      by_cases h : k2 = k
      · subst h
        simp [assocSet, List.lookup]
      · have hb : (k2 == k) = false := beq_eq_false_iff_ne.mpr h
        have hb2 : (k == k2) = false := beq_eq_false_iff_ne.mpr (Ne.symm h)
        simp only [assocSet, hb, Bool.false_eq_true, if_false]
        simp only [List.lookup, hb2]
        exact ih

theorem assocErase_assocSet {α : Type} (k : String) (v : α) (l : List (String × α))
    (h : l.lookup k = none) : assocErase k (assocSet k v l) = l := by
  induction l with
  | nil => simp [assocSet, assocErase]
  | cons hd tl ih =>
      obtain ⟨k2, v2⟩ := hd
      by_cases hk : k = k2
      · subst hk
        simp [List.lookup] at h
      · have hb : (k == k2) = false := beq_eq_false_iff_ne.mpr hk
        have hb2 : (k2 == k) = false := beq_eq_false_iff_ne.mpr (Ne.symm hk)
        simp only [List.lookup, hb] at h
        simp only [assocSet, hb2, Bool.false_eq_true, if_false]
        simp only [assocErase, hb2, Bool.false_eq_true, if_false]
        rw [ih h]

theorem isCommandAllowed_eq_info (cfg : CommandsConfig) (c : String) (ci : CommandInfo)
    (h : getCommandInfo cfg c = some ci) : isCommandAllowed cfg c = ci.enabled := by
  unfold isCommandAllowed
  unfold getCommandInfo at h
  rw [h]

theorem handle_notDonator (cfg : CommandsConfig) (d : DBData) (now : Nat)
    (p c a : String)
    (h1 : GAME_ADMINS.contains p = false)
    (h2 : getDonator d p = none) :
    handlePlayerCommand cfg d now p c a =
      { db := addLog d now p c false "НЕ ДОНАТЕР",
        outcome := .notDonator,
        chats := [s!"❌ {p}, команды доступны только донатерам!"] } := by
  have hmem : p ∉ GAME_ADMINS := by simpa using h1
  unfold handlePlayerCommand
  simp [hmem, h2]

theorem handle_blocked (cfg : CommandsConfig) (d : DBData) (now : Nat)
    (p c a : String) (don : Donator) (bi : BannedInfo)
    (h1 : GAME_ADMINS.contains p = false)
    (h2 : getDonator d p = some don)
    (h3 : isCommandBanned cfg c = true)
    (h4 : getBannedCommandInfo cfg c = some bi) :
    handlePlayerCommand cfg d now p c a =
      { db := { addLog d now p c false "В ЧЁРНОМ СПИСКЕ" with stats :=
                  { d.stats with blockedAttempts := d.stats.blockedAttempts + 1 } },
        outcome := .blocked bi.reason,
        chats := [s!"🔒 {p}, команда !{c} ЗАПРЕЩЕНА! ({bi.reason})"] } := by
  have hmem : p ∉ GAME_ADMINS := by simpa using h1
  unfold handlePlayerCommand
  simp [hmem, h2, h3, h4, addLog]

theorem handle_insufficientRank (cfg : CommandsConfig) (d : DBData) (now : Nat)
    (p c a : String) (don : Donator)
    (h1 : GAME_ADMINS.contains p = false)
    (h2 : getDonator d p = some don)
    (h3 : isCommandBanned cfg c = false)
    (h4 : isCommandAllowed cfg c = true)
    (h5 : canRankUseCommand cfg don.rank c = false) :
    handlePlayerCommand cfg d now p c a =
      { db := addLog d now p c false "НЕ ДОСТАТОЧНО ПРАВ",
        outcome := .insufficientRank,
        chats := [s!"❌ {p}, команда !{c} недоступна для вашего ранга!"] } := by
  have hmem : p ∉ GAME_ADMINS := by simpa using h1
  unfold handlePlayerCommand
  simp [hmem, h2, h3, h4, h5]

theorem handle_onCooldown (cfg : CommandsConfig) (d : DBData) (now : Nat)
    (p c a : String) (don : Donator) (cd : CooldownEntry)
    (h1 : GAME_ADMINS.contains p = false)
    (h2 : getDonator d p = some don)
    (h3 : isCommandBanned cfg c = false)
    (h4 : isCommandAllowed cfg c = true)
    (h5 : canRankUseCommand cfg don.rank c = true)
    (h6 : d.commandCooldowns.lookup p = some cd)
    (h7 : now ≤ cd.expiresAt) :
    handlePlayerCommand cfg d now p c a =
      { db := d, outcome := .onCooldown (cd.expiresAt - now),
        chats :=
          [s!"⏱️ {p}, подождите {(cd.expiresAt - now + 999) / 1000 / 60}м {(cd.expiresAt - now + 999) / 1000 % 60}с!"] } := by
  have hmem : p ∉ GAME_ADMINS := by simpa using h1
  have hcool : isOnCooldown d now p = (true, d) := by
    simp [isOnCooldown, h6, Nat.not_lt.mpr h7]
  unfold handlePlayerCommand
  simp [hmem, h2, h3, h4, h5, hcool, getCooldownTimeLeft, h6]

theorem handle_accept (cfg : CommandsConfig) (d : DBData) (now : Nat)
    (p c a : String) (don : Donator) (ci : CommandInfo) (d1 : DBData)
    (h1 : GAME_ADMINS.contains p = false)
    (h2 : getDonator d p = some don)
    (h3 : isCommandBanned cfg c = false)
    (h4 : getCommandInfo cfg c = some ci)
    (h5 : ci.enabled = true)
    (h6 : canRankUseCommand cfg don.rank c = true)
    (h7 : isOnCooldown d now p = (false, d1)) :
    handlePlayerCommand cfg d now p c a =
      { db := { donators := d1.donators,
                commandCooldowns :=
                  assocSet p ⟨now, now + ci.cooldown.getD 300000⟩ d1.commandCooldowns,
                logs := trimLogs (d1.logs ++ [⟨now, p, c, true, "УСПЕШНО"⟩]),
                stats := { d1.stats with totalCommands := d1.stats.totalCommands + 1 } },
        outcome := .accepted,
        chats := executeCommand p c a don.rank } := by
  have hmem : p ∉ GAME_ADMINS := by simpa using h1
  have hallow : isCommandAllowed cfg c = true := by
    rw [isCommandAllowed_eq_info cfg c ci h4]; exact h5
  unfold handlePlayerCommand
  simp [hmem, h2, h3, hallow, h6, h7, h4, setCooldown, addLog]

theorem isOnCooldown_true_elim (d : DBData) (now : Nat) (p : String) (d1 : DBData)
    (h : isOnCooldown d now p = (true, d1)) :
    d1 = d ∧ ∃ cd, d.commandCooldowns.lookup p = some cd ∧ now ≤ cd.expiresAt := by
  unfold isOnCooldown at h
  rcases hl : d.commandCooldowns.lookup p with _ | cd <;> rw [hl] at h
  · simp at h
  · by_cases hgt : now > cd.expiresAt
    · simp [hgt] at h
    · simp [hgt] at h
      exact ⟨h.symm, cd, rfl, Nat.le_of_not_lt hgt⟩

/-- Iterating updateStatus from a state that already agrees with the
probe result changes nothing and logs nothing. -/
theorem runProbes_stable (o : ProbeOutcome) (n : Nat) :
    runProbes ⟨check o⟩ (List.replicate n o) = (⟨check o⟩, []) := by
  induction n with
  | zero => rfl
  | succ k ih =>
      cases hc : check o <;> simp_all [List.replicate, runProbes, updateStatus]

/-- C6: for every speaker handle in the fixed administrator list the
dispatch pipeline skips all authorization checks (donator lookup,
blocked table, policy table, rank, cooldown) and routes the command
straight to execution: the record store is returned untouched and the
chat output is exactly the execution switch run with rank ADMIN. -/
theorem c6_admin_bypass (cfg : CommandsConfig) (d : DBData) (now : Nat)
    (p c a : String) (h : GAME_ADMINS.contains p = true) :
    handlePlayerCommand cfg d now p c a =
      { db := d, outcome := .adminExecuted,
        chats := executeCommand p c a "ADMIN" } := by
  have hmem : p ∈ GAME_ADMINS := by simpa using h
  unfold handlePlayerCommand
  simp [hmem]

def cfgC6 : CommandsConfig :=
  { allowedCommands := [],
    bannedCommands := [("fly", ⟨true, "чит", "HIGH"⟩)],
    ranks := [] }

def dbC6 : DBData :=
  { donators := [], commandCooldowns := [], logs := [], stats := ⟨0, 0, 0⟩ }

/-- C6 witness: `voyagerplay` runs a command that is even in the blocked
table, on an empty record store, and is routed straight to execution
with no store mutation. -/
theorem c6_admin_bypass_witness :
    handlePlayerCommand cfgC6 dbC6 0 "voyagerplay" "fly" "" =
      { db := dbC6, outcome := .adminExecuted,
        chats := executeCommand "voyagerplay" "fly" "" "ADMIN" } :=
  c6_admin_bypass cfgC6 dbC6 0 "voyagerplay" "fly" "" (by decide)

/-- C7: after every addLog operation the audit log holds at most 1000
entries; the new log is exactly a suffix of the old log extended by the
new entry, so eviction drops the oldest entries first, the relative
order of retained entries is preserved, and no retained entry is
mutated. -/
theorem trimLogs_eq_drop (l : List LogEntry) : trimLogs l = l.drop (l.length - 1000) := by
  unfold trimLogs
  by_cases h : l.length > 1000
  · rw [if_pos h]
  · rw [if_neg h]
    have h0 : l.length - 1000 = 0 := by omega
    rw [h0, List.drop_zero]

theorem c7_addLog_fifo_cap (d : DBData) (now : Nat) (p c : String)
    (al : Bool) (rs : String) :
    ((addLog d now p c al rs).logs.length ≤ 1000) ∧
    ((addLog d now p c al rs).logs =
      (d.logs ++ [(⟨now, p, c, al, rs⟩ : LogEntry)]).drop ((d.logs.length + 1) - 1000)) ∧
    ((addLog d now p c al rs).logs <:+ (d.logs ++ [(⟨now, p, c, al, rs⟩ : LogEntry)])) := by
  have hlogs : (addLog d now p c al rs).logs =
      trimLogs (d.logs ++ [(⟨now, p, c, al, rs⟩ : LogEntry)]) := rfl
  have hdrop := trimLogs_eq_drop (d.logs ++ [(⟨now, p, c, al, rs⟩ : LogEntry)])
  have hlen : (d.logs ++ [(⟨now, p, c, al, rs⟩ : LogEntry)]).length = d.logs.length + 1 := by
    simp
  refine ⟨?_, ?_, ?_⟩
  · rw [hlogs, hdrop, List.length_drop]
    omega
  · rw [hlogs, hdrop, hlen]
  · rw [hlogs, hdrop]
    exact List.drop_suffix _ _

/-- C8: on an `end` event with the retry counter below the ceiling of
20, the counter increments and a reconnect is scheduled after
min(5000·n, 120000) ms where n is the incremented attempt count; at the
ceiling nothing is scheduled and the terminal failure is reported; a
successful connect (`spawn`) resets the counter to zero. -/
theorem c8_reconnect_backoff (st : ReconnectState) :
    (st.reconnectAttempts < MAX_RECONNECT →
      onEnd st = (⟨st.reconnectAttempts + 1⟩,
        .scheduleReconnect (min (5000 * (st.reconnectAttempts + 1)) 120000))) ∧
    (MAX_RECONNECT ≤ st.reconnectAttempts → onEnd st = (st, .terminalFailure)) ∧
    onSpawn st = ⟨0⟩ := by
  refine ⟨fun h => ?_, fun h => ?_, rfl⟩
  · simp [onEnd, h]
  · simp [onEnd, Nat.not_lt.mpr h]

/-- C8 witness: attempt 3 schedules a 20-second reconnect and bumps the
counter to 4; at attempt 20 only the terminal failure is reported; a
spawn resets any counter to 0. -/
theorem c8_reconnect_backoff_witness :
    onEnd ⟨3⟩ = (⟨4⟩, .scheduleReconnect (min (5000 * 4) 120000)) ∧
    onEnd ⟨20⟩ = (⟨20⟩, .terminalFailure) ∧
    onSpawn ⟨7⟩ = ⟨0⟩ :=
  ⟨(c8_reconnect_backoff ⟨3⟩).1 (by decide),
   (c8_reconnect_backoff ⟨20⟩).2.1 (by decide),
   (c8_reconnect_backoff ⟨7⟩).2.2⟩

/-- C9: check maps probe errors and timeouts to false (updateStatus
never raises); updateStatus returns and stores the new online status
equal to the probe result and emits a transition log exactly when the
new status differs from the previous one; n+1 consecutive identical
probe results that differ from the starting status produce exactly one
transition log. -/
theorem c9_updateStatus_transitions (st : CheckerState) (o : ProbeOutcome) :
    (check .connectError = false ∧ check .connectTimeout = false) ∧
    ((updateStatus st o).2.2 = check o) ∧
    ((updateStatus st o).1.isOnline = check o) ∧
    ((updateStatus st o).2.1 ≠ [] ↔ check o ≠ st.isOnline) ∧
    (∀ n, check o ≠ st.isOnline →
      (runProbes st (List.replicate (n + 1) o)).2.length = 1) := by
  obtain ⟨b⟩ := st
  refine ⟨⟨rfl, rfl⟩, rfl, rfl, ?_, ?_⟩
  · cases b <;> cases o <;> simp [updateStatus, check]
  · intro n h
    have hstable := runProbes_stable o n
    cases b <;> cases o <;> simp_all [List.replicate, runProbes, updateStatus, check]

/-- C9 witness: from an online state, three consecutive probe errors
produce exactly one offline transition log. -/
theorem c9_updateStatus_transitions_witness :
    (runProbes ⟨true⟩ (List.replicate 3 .connectError)).2.length = 1 :=
  (c9_updateStatus_transitions ⟨true⟩ .connectError).2.2.2.2 2 (by decide)

/-- C3: for a non-administrator speaker with a donator record, the
blocked-command check runs before the unknown-command and rank checks:
a name in the blocked table with blocked=true is rejected with the
blocked reason — whatever the policy table says about the same name —
and the blocked-attempt counter increments by one. -/
theorem c3_blocked_precedence (cfg : CommandsConfig) (d : DBData) (now : Nat)
    (p c a : String) (don : Donator) (bi : BannedInfo)
    (h1 : GAME_ADMINS.contains p = false)
    (h2 : getDonator d p = some don)
    (h3 : isCommandBanned cfg c = true)
    (h4 : getBannedCommandInfo cfg c = some bi) :
    (handlePlayerCommand cfg d now p c a).outcome = .blocked bi.reason ∧
    (handlePlayerCommand cfg d now p c a).db.stats.blockedAttempts =
      d.stats.blockedAttempts + 1 := by
  rw [handle_blocked cfg d now p c a don bi h1 h2 h3 h4]
  exact ⟨rfl, rfl⟩

def cfgC3 : CommandsConfig :=
  { allowedCommands := [("give", ⟨true, "vip", some 60000⟩)],
    bannedCommands := [("give", ⟨true, "дюп", "HIGH"⟩)],
    ranks := [("vip", ⟨some 1⟩)] }

def dbC3 : DBData :=
  { donators := [("Alice", ⟨"vip", 0⟩)], commandCooldowns := [], logs := [],
    stats := ⟨0, 0, 0⟩ }

/-- C3 witness: `give` sits in both tables with an enabled policy entry,
yet donator Alice is rejected as blocked and the blocked counter goes
from 0 to 1. -/
theorem c3_blocked_precedence_witness :
    isCommandAllowed cfgC3 "give" = true ∧
    (handlePlayerCommand cfgC3 dbC3 5 "Alice" "give" "diamond").outcome = .blocked "дюп" ∧
    (handlePlayerCommand cfgC3 dbC3 5 "Alice" "give" "diamond").db.stats.blockedAttempts = 1 :=
  ⟨rfl,
   (c3_blocked_precedence cfgC3 dbC3 5 "Alice" "give" "diamond" ⟨"vip", 0⟩
      ⟨true, "дюп", "HIGH"⟩ (by decide) rfl rfl rfl).1,
   (c3_blocked_precedence cfgC3 dbC3 5 "Alice" "give" "diamond" ⟨"vip", 0⟩
      ⟨true, "дюп", "HIGH"⟩ (by decide) rfl rfl rfl).2⟩

/-- C4: with the earlier gates fixed to pass (non-admin donator, not
blocked, enabled policy entry), the rank check rejects with
insufficient rank exactly when the donator's resolved level is strictly
below the command's required level, and otherwise the pipeline reaches
the cooldown check, ending on the cooldown or the accepted path. -/
theorem c4_rank_gate (cfg : CommandsConfig) (d : DBData) (now : Nat)
    (p c a : String) (don : Donator) (ci : CommandInfo)
    (h1 : GAME_ADMINS.contains p = false)
    (h2 : getDonator d p = some don)
    (h3 : isCommandBanned cfg c = false)
    (h4 : getCommandInfo cfg c = some ci)
    (h5 : ci.enabled = true) :
    ((handlePlayerCommand cfg d now p c a).outcome = .insufficientRank ↔
      getRankLevel cfg don.rank < getRankLevel cfg ci.requiredRank) ∧
    (getRankLevel cfg ci.requiredRank ≤ getRankLevel cfg don.rank →
      (∃ t, (handlePlayerCommand cfg d now p c a).outcome = .onCooldown t) ∨
        (handlePlayerCommand cfg d now p c a).outcome = .accepted) := by
  have hallow : isCommandAllowed cfg c = true := by
    rw [isCommandAllowed_eq_info cfg c ci h4]; exact h5
  have hrank : canRankUseCommand cfg don.rank c =
      decide (getRankLevel cfg don.rank ≥ getRankLevel cfg ci.requiredRank) := by
    unfold canRankUseCommand
    rw [h4]
  by_cases hlt : getRankLevel cfg don.rank < getRankLevel cfg ci.requiredRank
  · have hfalse : canRankUseCommand cfg don.rank c = false := by
      rw [hrank]
      simpa using hlt
    rw [handle_insufficientRank cfg d now p c a don h1 h2 h3 hallow hfalse]
    exact ⟨⟨fun _ => hlt, fun _ => rfl⟩, fun hge => absurd hlt (not_lt.mpr hge)⟩
  · have hge := not_lt.mp hlt
    have htrue : canRankUseCommand cfg don.rank c = true := by
      rw [hrank]
      simpa using hge
    have hreach : (∃ t, (handlePlayerCommand cfg d now p c a).outcome = .onCooldown t) ∨
        (handlePlayerCommand cfg d now p c a).outcome = .accepted := by
      rcases hc : isOnCooldown d now p with ⟨b, d1⟩
      cases b
      · right
        rw [handle_accept cfg d now p c a don ci d1 h1 h2 h3 h4 h5 htrue hc]
      · obtain ⟨-, cd, hl, hle⟩ := isOnCooldown_true_elim d now p d1 hc
        left
        exact ⟨cd.expiresAt - now,
          by rw [handle_onCooldown cfg d now p c a don cd h1 h2 h3 hallow htrue hl hle]⟩
    refine ⟨⟨fun hout => ?_, fun h => absurd h hlt⟩, fun _ => hreach⟩
    rcases hreach with ⟨t, ht⟩ | ht <;> rw [hout] at ht <;> exact CmdOutcome.noConfusion ht

def cfgC4 : CommandsConfig :=
  { allowedCommands := [("fly", ⟨true, "premium", some 60000⟩),
                        ("heal", ⟨true, "vip", some 60000⟩)],
    bannedCommands := [],
    ranks := [("vip", ⟨some 1⟩), ("premium", ⟨some 2⟩)] }

def dbC4 : DBData :=
  { donators := [("Alice", ⟨"vip", 0⟩)], commandCooldowns := [], logs := [],
    stats := ⟨0, 0, 0⟩ }

/-- C4 witness: Alice (vip, level 1) is rejected on `fly` (requires
premium, level 2) and accepted on `heal` (requires vip, level 1). -/
theorem c4_rank_gate_witness :
    (handlePlayerCommand cfgC4 dbC4 0 "Alice" "fly" "").outcome = .insufficientRank ∧
    (handlePlayerCommand cfgC4 dbC4 0 "Alice" "heal" "").outcome = .accepted := by
  constructor
  · exact (c4_rank_gate cfgC4 dbC4 0 "Alice" "fly" "" ⟨"vip", 0⟩
      ⟨true, "premium", some 60000⟩ (by decide) rfl rfl rfl rfl).1.mpr (by decide)
  · rcases (c4_rank_gate cfgC4 dbC4 0 "Alice" "heal" "" ⟨"vip", 0⟩
      ⟨true, "vip", some 60000⟩ (by decide) rfl rfl rfl rfl).2 (by decide) with ⟨t, ht⟩ | ht
    · rw [show (handlePlayerCommand cfgC4 dbC4 0 "Alice" "heal" "").outcome =
          CmdOutcome.accepted from rfl] at ht
      exact CmdOutcome.noConfusion ht
    · exact ht

/-- C5: cooldown round-trip.  An accepted command writes a cooldown
record expiring at now+duration; any further invocation at now2 ≤
expiry is rejected on the cooldown path with the remaining time
expiry−now2; an invocation after the expiry finds the record treated as
absent (lazily deleted) and is accepted again. -/
theorem c5_cooldown_roundtrip (cfg : CommandsConfig) (d : DBData) (now : Nat)
    (p c a : String) (don : Donator) (ci : CommandInfo) (dur : Nat)
    (h1 : GAME_ADMINS.contains p = false)
    (h2 : getDonator d p = some don)
    (h3 : isCommandBanned cfg c = false)
    (h4 : getCommandInfo cfg c = some ci)
    (h5 : ci.enabled = true)
    (h6 : canRankUseCommand cfg don.rank c = true)
    (h7 : d.commandCooldowns.lookup p = none)
    (h8 : ci.cooldown = some dur) :
    ((handlePlayerCommand cfg d now p c a).outcome = .accepted ∧
     (handlePlayerCommand cfg d now p c a).db.commandCooldowns.lookup p =
       some ⟨now, now + dur⟩) ∧
    (∀ now2, now2 ≤ now + dur →
      (handlePlayerCommand cfg (handlePlayerCommand cfg d now p c a).db now2 p c a).outcome =
        .onCooldown (now + dur - now2)) ∧
    (∀ now3, now + dur < now3 →
      (handlePlayerCommand cfg (handlePlayerCommand cfg d now p c a).db now3 p c a).outcome =
        .accepted) := by
  have hallow : isCommandAllowed cfg c = true := by
    rw [isCommandAllowed_eq_info cfg c ci h4]; exact h5
  have hcool : isOnCooldown d now p = (false, d) := by
    simp [isOnCooldown, h7]
  have hacc := handle_accept cfg d now p c a don ci d h1 h2 h3 h4 h5 h6 hcool
  have hdur : ci.cooldown.getD 300000 = dur := by rw [h8]; rfl
  rw [hdur] at hacc
  have hdon2 : getDonator (handlePlayerCommand cfg d now p c a).db p = some don := by
    rw [hacc]; exact h2
  have hlook2 : (handlePlayerCommand cfg d now p c a).db.commandCooldowns.lookup p =
      some ⟨now, now + dur⟩ := by
    rw [hacc]; exact lookup_assocSet_self p ⟨now, now + dur⟩ d.commandCooldowns
  refine ⟨⟨by rw [hacc], hlook2⟩, ?_, ?_⟩
  · intro now2 hle
    rw [handle_onCooldown cfg (handlePlayerCommand cfg d now p c a).db now2 p c a don
      ⟨now, now + dur⟩ h1 hdon2 h3 hallow h6 hlook2 hle]
  · intro now3 hgt3
    rcases hc3 : isOnCooldown (handlePlayerCommand cfg d now p c a).db now3 p with ⟨b, d1⟩
    cases b
    · rw [handle_accept cfg (handlePlayerCommand cfg d now p c a).db now3 p c a don ci d1
        h1 hdon2 h3 h4 h5 h6 hc3]
    · obtain ⟨-, cd, hl, hle⟩ := isOnCooldown_true_elim _ now3 p d1 hc3
      rw [hlook2] at hl
      injection hl with hl
      subst hl
      have hle2 : now3 ≤ now + dur := hle
      exact absurd hle2 (by omega)

def cfgC5 : CommandsConfig :=
  { allowedCommands := [("heal", ⟨true, "vip", some 60000⟩)],
    bannedCommands := [],
    ranks := [("vip", ⟨some 1⟩)] }

def dbC5 : DBData :=
  { donators := [("Alice", ⟨"vip", 0⟩)], commandCooldowns := [], logs := [],
    stats := ⟨0, 0, 0⟩ }

/-- C5 witness: Alice's `!heal` at t=1000 with a 60000 ms cooldown sets
an expiry at 61000; a retry at t=30000 is rejected with 31000 ms left;
a retry at t=61001 is accepted again. -/
theorem c5_cooldown_roundtrip_witness :
    (handlePlayerCommand cfgC5 dbC5 1000 "Alice" "heal" "").outcome = .accepted ∧
    (handlePlayerCommand cfgC5 dbC5 1000 "Alice" "heal" "").db.commandCooldowns.lookup "Alice" =
      some ⟨1000, 1000 + 60000⟩ ∧
    (handlePlayerCommand cfgC5
        (handlePlayerCommand cfgC5 dbC5 1000 "Alice" "heal" "").db 30000 "Alice" "heal" "").outcome =
      .onCooldown (1000 + 60000 - 30000) ∧
    (handlePlayerCommand cfgC5
        (handlePlayerCommand cfgC5 dbC5 1000 "Alice" "heal" "").db 61001 "Alice" "heal" "").outcome =
      .accepted :=
  ⟨(c5_cooldown_roundtrip cfgC5 dbC5 1000 "Alice" "heal" "" ⟨"vip", 0⟩ ⟨true, "vip", some 60000⟩
      60000 (by decide) rfl rfl rfl rfl (by decide) rfl rfl).1.1,
   (c5_cooldown_roundtrip cfgC5 dbC5 1000 "Alice" "heal" "" ⟨"vip", 0⟩ ⟨true, "vip", some 60000⟩
      60000 (by decide) rfl rfl rfl rfl (by decide) rfl rfl).1.2,
   (c5_cooldown_roundtrip cfgC5 dbC5 1000 "Alice" "heal" "" ⟨"vip", 0⟩ ⟨true, "vip", some 60000⟩
      60000 (by decide) rfl rfl rfl rfl (by decide) rfl rfl).2.1 30000 (by decide),
   (c5_cooldown_roundtrip cfgC5 dbC5 1000 "Alice" "heal" "" ⟨"vip", 0⟩ ⟨true, "vip", some 60000⟩
      60000 (by decide) rfl rfl rfl rfl (by decide) rfl rfl).2.2 61001 (by decide)⟩

def cfgC1 : CommandsConfig :=
  { allowedCommands := [("give", ⟨true, "vip", some 60000⟩)],
    bannedCommands := [],
    ranks := [("vip", ⟨some 1⟩)] }

def dbC1 : DBData :=
  { donators := [("Alice", ⟨"vip", 0⟩)], commandCooldowns := [], logs := [],
    stats := ⟨0, 0, 0⟩ }

/-- C1 counterexample: donator Alice sends `!give` with an empty
argument string.  The only chat line is the usage-error reply (the game
command itself is not sent), yet — contrary to the claim — a cooldown
record for Alice is created, the accepted-command counter is
incremented, and a success audit entry is written, because
handlePlayerCommand performs those updates unconditionally after
executeCommand returns. -/
theorem c1_empty_args_charges_cooldown_cex :
    (handlePlayerCommand cfgC1 dbC1 1000 "Alice" "give" "").chats =
      ["❌ Alice, используй: !give [предмет] [кол-во]"] ∧
    (handlePlayerCommand cfgC1 dbC1 1000 "Alice" "give" "").db.commandCooldowns.lookup "Alice" =
      some ⟨1000, 61000⟩ ∧
    (handlePlayerCommand cfgC1 dbC1 1000 "Alice" "give" "").db.stats.totalCommands =
      dbC1.stats.totalCommands + 1 ∧
    (handlePlayerCommand cfgC1 dbC1 1000 "Alice" "give" "").db.logs =
      [⟨1000, "Alice", "give", true, "УСПЕШНО"⟩] :=
  ⟨rfl, rfl, rfl, rfl⟩

/-- C1 amended: a `!give` invocation with empty arguments that passes
all authorization gates short-circuits execution with the usage-error
reply and emits no game command, but the pipeline nevertheless creates
the cooldown record, increments the accepted-command counter and
writes a success audit entry (the `!effect` case is analogous). -/
theorem c1_empty_args_usage_reply_amended (cfg : CommandsConfig) (d : DBData) (now : Nat)
    (p : String) (don : Donator) (ci : CommandInfo) (dur : Nat)
    (h1 : GAME_ADMINS.contains p = false)
    (h2 : getDonator d p = some don)
    (h3 : isCommandBanned cfg "give" = false)
    (h4 : getCommandInfo cfg "give" = some ci)
    (h5 : ci.enabled = true)
    (h6 : canRankUseCommand cfg don.rank "give" = true)
    (h7 : d.commandCooldowns.lookup p = none)
    (h8 : ci.cooldown = some dur) :
    (handlePlayerCommand cfg d now p "give" "").outcome = .accepted ∧
    (handlePlayerCommand cfg d now p "give" "").chats =
      [s!"❌ {p}, используй: !give [предмет] [кол-во]"] ∧
    (handlePlayerCommand cfg d now p "give" "").db.commandCooldowns.lookup p =
      some ⟨now, now + dur⟩ ∧
    (handlePlayerCommand cfg d now p "give" "").db.stats.totalCommands =
      d.stats.totalCommands + 1 ∧
    (handlePlayerCommand cfg d now p "give" "").db.logs =
      trimLogs (d.logs ++ [⟨now, p, "give", true, "УСПЕШНО"⟩]) := by
  have hcool : isOnCooldown d now p = (false, d) := by
    simp [isOnCooldown, h7]
  have hacc := handle_accept cfg d now p "give" "" don ci d h1 h2 h3 h4 h5 h6 hcool
  have hdur : ci.cooldown.getD 300000 = dur := by rw [h8]; rfl
  rw [hdur] at hacc
  rw [hacc]
  refine ⟨rfl, ?_, ?_, rfl, rfl⟩
  · rfl
  · exact lookup_assocSet_self p ⟨now, now + dur⟩ d.commandCooldowns

/-- C1 amended witness: the concrete Alice scenario, via the amended
theorem. -/
theorem c1_empty_args_usage_reply_amended_witness :
    (handlePlayerCommand cfgC1 dbC1 1000 "Alice" "give" "").outcome = .accepted ∧
    (handlePlayerCommand cfgC1 dbC1 1000 "Alice" "give" "").db.commandCooldowns.lookup "Alice" =
      some ⟨1000, 1000 + 60000⟩ :=
  ⟨(c1_empty_args_usage_reply_amended cfgC1 dbC1 1000 "Alice" ⟨"vip", 0⟩
      ⟨true, "vip", some 60000⟩ 60000 (by decide) rfl rfl rfl rfl (by decide) rfl rfl).1,
   (c1_empty_args_usage_reply_amended cfgC1 dbC1 1000 "Alice" ⟨"vip", 0⟩
      ⟨true, "vip", some 60000⟩ 60000 (by decide) rfl rfl rfl rfl (by decide) rfl rfl).2.2.1⟩

def cfgC2 : CommandsConfig :=
  { allowedCommands := [("give", ⟨true, "vip", some 60000⟩)],
    bannedCommands := [],
    ranks := [("vip", ⟨some 1⟩)] }

def dbC2 : DBData :=
  { donators := [], commandCooldowns := [], logs := [], stats := ⟨0, 0, 0⟩ }

/-- C2 counterexample: unknown speaker Bob sends `!give diamond 1`.
The rejection, the untouched cooldowns and the unchanged counters all
hold, but the record store IS mutated: Database.addLog appends a
failure audit entry (and persists it), so the resulting store differs
from the original. -/
theorem c2_not_donator_mutates_store_cex :
    (handlePlayerCommand cfgC2 dbC2 5 "Bob" "give" "diamond 1").outcome = .notDonator ∧
    dbC2.logs = [] ∧
    (handlePlayerCommand cfgC2 dbC2 5 "Bob" "give" "diamond 1").db.logs =
      [⟨5, "Bob", "give", false, "НЕ ДОНАТЕР"⟩] ∧
    (handlePlayerCommand cfgC2 dbC2 5 "Bob" "give" "diamond 1").db ≠ dbC2 := by
  refine ⟨rfl, rfl, rfl, ?_⟩
  decide

/-- C2 amended: a speaker with no donator record (and not an
administrator) is rejected with the not-a-donator reply; no cooldown is
set, the counters and donator table are untouched, but a failure audit
entry (reason `НЕ ДОНАТЕР`) is appended to the record store's log. -/
theorem c2_not_donator_amended (cfg : CommandsConfig) (d : DBData) (now : Nat)
    (p c a : String)
    (h1 : GAME_ADMINS.contains p = false)
    (h2 : getDonator d p = none) :
    (handlePlayerCommand cfg d now p c a).outcome = .notDonator ∧
    (handlePlayerCommand cfg d now p c a).chats =
      [s!"❌ {p}, команды доступны только донатерам!"] ∧
    (handlePlayerCommand cfg d now p c a).db.commandCooldowns = d.commandCooldowns ∧
    (handlePlayerCommand cfg d now p c a).db.stats = d.stats ∧
    (handlePlayerCommand cfg d now p c a).db.donators = d.donators ∧
    (handlePlayerCommand cfg d now p c a).db.logs =
      trimLogs (d.logs ++ [⟨now, p, c, false, "НЕ ДОНАТЕР"⟩]) := by
  rw [handle_notDonator cfg d now p c a h1 h2]
  exact ⟨rfl, rfl, rfl, rfl, rfl, rfl⟩

/-- C2 amended witness: the concrete Bob scenario, via the amended
theorem. -/
theorem c2_not_donator_amended_witness :
    (handlePlayerCommand cfgC2 dbC2 5 "Bob" "give" "diamond 1").outcome = .notDonator ∧
    (handlePlayerCommand cfgC2 dbC2 5 "Bob" "give" "diamond 1").db.stats = dbC2.stats :=
  ⟨(c2_not_donator_amended cfgC2 dbC2 5 "Bob" "give" "diamond 1" (by decide) rfl).1,
   (c2_not_donator_amended cfgC2 dbC2 5 "Bob" "give" "diamond 1" (by decide) rfl).2.2.2.1⟩

def cfgC10 : CommandsConfig :=
  { allowedCommands := [("heal", ⟨true, "vip", some 1000⟩)],
    bannedCommands := [],
    ranks := [("bad", ⟨some (-1)⟩)] }

def dbC10 : DBData :=
  { donators := [("Bob", ⟨"bad", 0⟩)], commandCooldowns := [], logs := [],
    stats := ⟨0, 0, 0⟩ }

/-- C10 counterexample: `heal` requires tier `vip`, which is absent
from the tier table, so the required level resolves to 0 — but donator
Bob at tier `bad` (level −1) does NOT pass the rank check, refuting the
claim that every donator passes: the pipeline rejects him with
insufficient rank. -/
theorem c10_negative_level_cex :
    getRankLevel cfgC10 "vip" = 0 ∧
    getRankLevel cfgC10 "bad" = -1 ∧
    canRankUseCommand cfgC10 "bad" "heal" = false ∧
    (handlePlayerCommand cfgC10 dbC10 0 "Bob" "heal" "").outcome = .insufficientRank :=
  ⟨rfl, rfl, rfl, rfl⟩

/-- C10 amended: when an enabled policy entry's required tier is absent
from the tier table (or its entry has no level), the required level
resolves to 0, and every donator whose own tier resolves to a
non-negative level — in particular every donator whose tier is itself
absent from the table — passes the rank check for that command. -/
theorem c10_absent_tier_amended (cfg : CommandsConfig) (c : String) (ci : CommandInfo)
    (h1 : getCommandInfo cfg c = some ci)
    (_h2 : ci.enabled = true)
    (h3 : cfg.ranks.lookup ci.requiredRank = none ∨
          ∃ e, cfg.ranks.lookup ci.requiredRank = some e ∧ e.level = none) :
    getRankLevel cfg ci.requiredRank = 0 ∧
    (∀ rk, 0 ≤ getRankLevel cfg rk → canRankUseCommand cfg rk c = true) ∧
    (∀ rk, cfg.ranks.lookup rk = none → canRankUseCommand cfg rk c = true) := by
  have hreq : getRankLevel cfg ci.requiredRank = 0 := by
    rcases h3 with h | ⟨e, he, hl⟩
    · simp [getRankLevel, h]
    · simp [getRankLevel, he, hl]
  refine ⟨hreq, fun rk hge => ?_, fun rk hnone => ?_⟩
  · simp only [canRankUseCommand, h1, hreq, ge_iff_le, decide_eq_true_eq]
    simpa using hge
  · have h0 : getRankLevel cfg rk = 0 := by simp [getRankLevel, hnone]
    simp only [canRankUseCommand, h1, hreq, h0, ge_iff_le, decide_eq_true_eq]
    exact le_refl 0

def cfgC10w : CommandsConfig :=
  { allowedCommands := [("heal", ⟨true, "vip", some 1000⟩)],
    bannedCommands := [],
    ranks := [] }

/-- C10 amended witness: with an empty tier table, `heal`'s required
tier `vip` resolves to level 0 and a donator at the unknown tier
`nosuch` passes the rank check. -/
theorem c10_absent_tier_amended_witness :
    getRankLevel cfgC10w "vip" = 0 ∧
    canRankUseCommand cfgC10w "nosuch" "heal" = true :=
  ⟨(c10_absent_tier_amended cfgC10w "heal" ⟨true, "vip", some 1000⟩ rfl rfl (Or.inl rfl)).1,
   (c10_absent_tier_amended cfgC10w "heal" ⟨true, "vip", some 1000⟩ rfl rfl
      (Or.inl rfl)).2.2 "nosuch" rfl⟩
